import Mathlib

/-!
Shallow embedding of the cancellation-letter generator from
`src/services/geminiService.ts`, together with the data model from
`src/types.ts`, and proofs of the specification claims about them.

The JavaScript source builds the letter with a template literal; here the
same text is assembled with `++`, writing every newline of the template as
its own `"\n"` piece so that the line structure is visible to the proofs.
The hidden current date (`new Date().toLocaleDateString()`) is passed in as
an explicit `currentDate` argument.
-/

namespace CancelLetter

/-- Tone enum from `src/types.ts`. -/
inductive Tone where
  | FORMAL
  | FIRM
  | FRIENDLY
  | DIRECT
deriving DecidableEq

/-- UserDetails from `src/types.ts`. -/
structure UserDetails where
  fullName : String
  email : String
  address : String
  phone : String
deriving DecidableEq

/-- SubscriptionDetails from `src/types.ts`. -/
structure SubscriptionDetails where
  serviceName : String
  accountNumber : String
  subscriptionPlan : String
  cancellationReason : String
  effectiveDate : String
deriving DecidableEq

/-- LetterData from `src/types.ts`: the aggregate LetterRequest. -/
structure LetterData where
  user : UserDetails
  subscription : SubscriptionDetails
  tone : Tone
deriving DecidableEq

/-- JavaScript `a || b` on strings: the empty string is falsy. -/
def jsOr (s fallback : String) : String :=
  if s = "" then fallback else s

/-- The tone-specific addendum computed by the if/else chain at the top of
`getTemplateLetter` (`toneAdjustment` in the source); it is `""` for the
formal tone. -/
def toneAdjustment : Tone → String
  | Tone.FIRM => "\nPlease be advised that this request is final. I expect a written confirmation of this cancellation and an assurance that no further charges will be applied to my account. If any further unauthorized billing occurs, I will be forced to escalate this matter."
  | Tone.FRIENDLY => "\nI have enjoyed using your service, but I have decided to cancel at this time. Thank you for your support and assistance with this request."
  | Tone.DIRECT => "\nPlease process this request immediately. No further communication is required other than a confirmation of termination."
  | Tone.FORMAL => ""

/-- The conditional reason fragment
`${subscription.cancellationReason ? ... : ''}` of the template literal. -/
def reasonLine (reason : String) : String :=
  if reason = "" then "" else "Reason for cancellation: " ++ reason ++ "\n"

/-- The template letter from `getTemplateLetter` in
`src/services/geminiService.ts`, with the current date as an explicit
argument.  Every newline of the template literal is written as a separate
`"\n"` piece; the concatenation is byte-for-byte the template text. -/
def getTemplateLetter (currentDate : String) (data : LetterData) : String :=
  data.user.fullName ++ "\n" ++
  jsOr data.user.address "" ++ "\n" ++
  data.user.email ++ "\n" ++
  jsOr data.user.phone "" ++ "\n" ++
  "\n" ++
  "Date: " ++ currentDate ++ "\n" ++
  "\n" ++
  "RE: Cancellation of " ++ data.subscription.serviceName ++ " Subscription" ++ "\n" ++
  "Account Number: " ++ jsOr data.subscription.accountNumber "N/A" ++ "\n" ++
  "\n" ++
  "To the Customer Service Team at " ++ data.subscription.serviceName ++ "," ++ "\n" ++
  "\n" ++
  "I am writing to formally request the cancellation of my " ++ jsOr data.subscription.subscriptionPlan "" ++ " subscription, effective " ++ data.subscription.effectiveDate ++ "." ++ "\n" ++
  "\n" ++
  reasonLine data.subscription.cancellationReason ++
  "\n" ++
  "Please stop all recurring payments associated with this account immediately. " ++ toneAdjustment data.tone ++ "\n" ++
  "\n" ++
  "Thank you for your prompt attention to this matter." ++ "\n" ++
  "\n" ++
  "Sincerely," ++ "\n" ++
  "\n" ++
  data.user.fullName

/-- Outcome of the external model call made by the two exported functions:
either the request throws, or it returns a response whose `text` field is
absent (`none`) or a string. -/
inductive ApiOutcome where
  | error
  | response (text : Option String)
deriving DecidableEq

/-- The exported `generateCancellationLetter`: the environment credential and
the network outcome are explicit arguments.  A missing, empty or literal
`"undefined"` key, a thrown request, or a falsy `response.text` all fall back
to `getTemplateLetter`. -/
def generateCancellationLetter (apiKey : Option String) (outcome : ApiOutcome)
    (currentDate : String) (data : LetterData) : String :=
  match apiKey with
  | none => getTemplateLetter currentDate data
  | some key =>
    if key = "" ∨ key = "undefined" then getTemplateLetter currentDate data
    else
      match outcome with
      | ApiOutcome.error => getTemplateLetter currentDate data
      | ApiOutcome.response t =>
        match t with
        | none => getTemplateLetter currentDate data
        | some s => if s = "" then getTemplateLetter currentDate data else s

/-- The default reasons list of `suggestCancellationReason`. -/
def defaultReasons : List String :=
  ["Cost is too high", "No longer using the service", "Found a better alternative", "Moving to a different location"]

/-- JavaScript whitespace test used by `trim` and `\s`: the ECMA-262
WhiteSpace and LineTerminator code points. -/
def isJsSpace (c : Char) : Bool :=
  c == ' ' || c == '\t' || c == '\n' || c == '\r' || c == '\x0b' || c == '\x0c' ||
  c == '\u00A0' || c == '\u1680' ||
  (decide ('\u2000' ≤ c) && decide (c ≤ '\u200A')) ||
  c == '\u2028' || c == '\u2029' || c == '\u202F' || c == '\u205F' ||
  c == '\u3000' || c == '\uFEFF'

/-- JavaScript `String.prototype.trim` on a character list. -/
def jsTrim (cs : List Char) : List Char :=
  ((cs.dropWhile isJsSpace).reverse.dropWhile isJsSpace).reverse

/-- The anchored first-match replacement `line.replace(/^\d+\.\s*/, '')`:
strip one leading run of digits followed by a dot and optional whitespace;
if the pattern does not match at the start, leave the line unchanged. -/
def dropNumbering (cs : List Char) : List Char :=
  if (cs.takeWhile Char.isDigit) = [] then cs
  else
    match cs.dropWhile Char.isDigit with
    | '.' :: rest => rest.dropWhile isJsSpace
    | _ => cs

/-- JavaScript `text.split('\n')` on a character list. -/
def splitNl : List Char → List (List Char)
  | [] => [[]]
  | c :: rest =>
    if c = '\n' then [] :: splitNl rest
    else
      match splitNl rest with
      | [] => [[c]]
      | h :: t => (c :: h) :: t

/-- The response-parsing pipeline of `suggestCancellationReason`:
`text.split('\n').filter(line => line.trim().length > 0)
     .map(line => line.replace(/^\d+\.\s*/, '').trim())`. -/
def parseSuggestions (text : String) : List String :=
  (((splitNl text.data).filter (fun line => 0 < (jsTrim line).length)).map
    (fun line => String.mk (jsTrim (dropNumbering line))))

/-- The exported `suggestCancellationReason`, with the credential and the
network outcome as explicit arguments.  The service name only feeds the
prompt, never the returned list. -/
def suggestCancellationReason (apiKey : Option String) (outcome : ApiOutcome)
    (serviceName : String) : List String :=
  match apiKey with
  | none => defaultReasons
  | some key =>
    if key = "" ∨ key = "undefined" then defaultReasons
    else
      match outcome with
      | ApiOutcome.error => defaultReasons
      | ApiOutcome.response t =>
        let text := t.getD ""
        let lines := parseSuggestions text
        if 0 < lines.length then lines.take 4 else defaultReasons

/-- One generator invocation in state-passing form: the source function only
destructures and reads `data` (it contains no assignment to it), so the
state of the input after the call is the input itself. -/
def generateCall (currentDate : String) (data : LetterData) : String × LetterData :=
  (getTemplateLetter currentDate data, data)

/-- Repeated generator invocations, each receiving the input state left by
the previous one. -/
def generateCalls : Nat → String → LetterData → List String × LetterData
  | 0, _, data => ([], data)
  | n + 1, currentDate, data =>
    let r := generateCall currentDate data
    let rest := generateCalls n currentDate r.2
    (r.1 :: rest.1, rest.2)

/-- Number of positions of `l` at which `pat` occurs as a prefix of the
corresponding tail (occurrence count of a pattern in a string). -/
def countSub (pat : List Char) : List Char → Nat
  | [] => 0
  | c :: rest => (if pat <+: (c :: rest) then 1 else 0) + countSub pat rest

/-- Join segments with single newline separators (inverse view of the
template line structure). -/
def joinNL : List (List Char) → List Char
  | [] => []
  | [s] => s
  | s :: rest => s ++ '\n' :: joinNL rest

/-- Substring containment between strings. -/
def containsStr (s pat : String) : Prop := pat.data <:+: s.data

/-- Suffix relation between strings. -/
def endsWithStr (s pat : String) : Prop := pat.data <:+ s.data

/-- The line label of the conditional reason line. -/
def reasonTag : String := "Reason for cancellation:"

/-- The part of the template after the sender block and its trailing blank
line (a view of `getTemplateLetter` used to reason about the sender block). -/
def letterTail (currentDate : String) (data : LetterData) : String :=
  "Date: " ++ currentDate ++ "\n" ++
  "\n" ++
  "RE: Cancellation of " ++ data.subscription.serviceName ++ " Subscription" ++ "\n" ++
  "Account Number: " ++ jsOr data.subscription.accountNumber "N/A" ++ "\n" ++
  "\n" ++
  "To the Customer Service Team at " ++ data.subscription.serviceName ++ "," ++ "\n" ++
  "\n" ++
  "I am writing to formally request the cancellation of my " ++ jsOr data.subscription.subscriptionPlan "" ++ " subscription, effective " ++ data.subscription.effectiveDate ++ "." ++ "\n" ++
  "\n" ++
  reasonLine data.subscription.cancellationReason ++
  "\n" ++
  "Please stop all recurring payments associated with this account immediately. " ++ toneAdjustment data.tone ++ "\n" ++
  "\n" ++
  "Thank you for your prompt attention to this matter." ++ "\n" ++
  "\n" ++
  "Sincerely," ++ "\n" ++
  "\n" ++
  data.user.fullName

/-- A request whose required fields are all empty strings. -/
def emptyRequest : LetterData :=
  ⟨⟨"", "", "", ""⟩, ⟨"", "", "", "", ""⟩, Tone.FORMAL⟩

/-- An ordinary fully populated request, used by witnesses. -/
def witnessRequest : LetterData :=
  ⟨⟨"Jane Doe", "jane@x.com", "1 Main St", "555-1234"⟩,
   ⟨"Netflix", "1234", "Premium", "Too expensive", "2024-01-01"⟩, Tone.FIRM⟩

/-- A request with empty address and phone, used to inspect the sender
block rendered for absent optional fields. -/
def blankLineRequest : LetterData :=
  ⟨⟨"A", "B", "", ""⟩, ⟨"S", "", "", "", "2024-01-01"⟩, Tone.FORMAL⟩

/-- A request whose full name itself contains the reason line label while
the cancellation reason is empty. -/
def injectedTagRequest : LetterData :=
  ⟨⟨"Reason for cancellation: X", "b@x.com", "", ""⟩,
   ⟨"S", "", "", "", "2024-01-01"⟩, Tone.FORMAL⟩

/-- The scenario request of the specification (tone Firm and Legalistic). -/
def janeRequest : LetterData :=
  ⟨⟨"Jane Doe", "jane@x.com", "1 Main St", ""⟩,
   ⟨"Netflix", "", "Premium", "Too expensive", "2024-01-01"⟩, Tone.FIRM⟩

/-- The same scenario request with tone Formal. -/
def janeFormalRequest : LetterData :=
  ⟨⟨"Jane Doe", "jane@x.com", "1 Main St", ""⟩,
   ⟨"Netflix", "", "Premium", "Too expensive", "2024-01-01"⟩, Tone.FORMAL⟩

/-! ## Generic occurrence-counting lemmas -/

theorem jsOr_empty (s : String) : jsOr s "" = s := by
  unfold jsOr; split <;> simp_all

theorem countSub_nil (pat : List Char) : countSub pat [] = 0 := rfl

theorem prefix_of_append_le {p a b : List Char} (h : p <+: a ++ b)
    (hl : p.length ≤ a.length) : p <+: a :=
  List.prefix_of_prefix_length_le h (List.prefix_append a b) hl

theorem prefix_append_iff_safe (pat a s : List Char) (hne : a ≠ [])
    (h : ∀ i, i < pat.length → 0 < i → ¬ (pat.drop i <+: s)) :
    pat <+: a ++ s ↔ pat <+: a := by
  constructor
  · intro hp
    by_cases hl : pat.length ≤ a.length
    · exact prefix_of_append_le hp hl
    · exfalso
      have hal : a.length < pat.length := Nat.lt_of_not_le hl
      have ha : a <+: pat :=
        List.prefix_of_prefix_length_le (List.prefix_append a s) hp (Nat.le_of_lt hal)
      obtain ⟨r, hr⟩ := ha
      have hdrop : pat.drop a.length = r := by
        rw [← hr, List.drop_left]
      have hrs : r <+: s := by
        rw [← hr] at hp
        exact (List.prefix_append_right_inj a).mp hp
      exact h a.length hal (List.length_pos.mpr hne) (hdrop ▸ hrs)
  · intro hp
    exact hp.trans (List.prefix_append a s)

theorem countSub_cons (pat : List Char) (c : Char) (rest : List Char) :
    countSub pat (c :: rest) = (if pat <+: (c :: rest) then 1 else 0) + countSub pat rest := rfl

theorem countSub_append_right (pat s : List Char)
    (h : ∀ i, i < pat.length → 0 < i → ¬ (pat.drop i <+: s)) :
    ∀ t, countSub pat (t ++ s) = countSub pat t + countSub pat s
  | [] => by simp [countSub]
  | c :: t2 => by
    have hiff : pat <+: (c :: t2) ++ s ↔ pat <+: c :: t2 :=
      prefix_append_iff_safe pat (c :: t2) s (by simp) h
    have ih := countSub_append_right pat s h t2
    rw [List.cons_append, countSub_cons, ← List.cons_append, ih, countSub_cons,
      if_congr hiff rfl rfl]
    omega

theorem countSub_append_left (pat : List Char) :
    ∀ s, (∀ j, j < s.length → s.drop j <+: pat → pat <+: s.drop j) →
    ∀ t, countSub pat (s ++ t) = countSub pat s + countSub pat t
  | [], _, t => by simp [countSub]
  | d :: s2, h, t => by
    have h2 : ∀ j, j < s2.length → s2.drop j <+: pat → pat <+: s2.drop j := by
      intro j hj hpre
      exact h (j + 1) (by simpa using Nat.succ_lt_succ hj) hpre
    have ih := countSub_append_left pat s2 h2 t
    have hiff : pat <+: (d :: s2) ++ t ↔ pat <+: d :: s2 := by
      constructor
      · intro hp
        by_cases hl : pat.length ≤ (d :: s2).length
        · exact prefix_of_append_le hp hl
        · have ha : (d :: s2) <+: pat :=
            List.prefix_of_prefix_length_le (List.prefix_append _ t) hp
              (Nat.le_of_lt (Nat.lt_of_not_le hl))
          exact h 0 (by simp) (by simpa using ha)
      · intro hp
        exact hp.trans (List.prefix_append _ t)
    rw [List.cons_append, countSub_cons, ← List.cons_append, ih, countSub_cons,
      if_congr hiff rfl rfl]
    omega

theorem countSub_cut {c : Char} (p2 : List Char) :
    ∀ l, c ∉ l → ∀ t, countSub (c :: p2) (l ++ t) = countSub (c :: p2) t
  | [], _, t => by simp
  | d :: l2, hc, t => by
    have hd : ¬ ((c :: p2) <+: d :: (l2 ++ t)) := by
      intro hp
      rw [List.cons_prefix_cons] at hp
      exact hc (by simp [hp.1])
    have ih := countSub_cut p2 l2 (fun hm => hc (List.mem_cons_of_mem d hm)) t
    rw [List.cons_append, countSub_cons, if_neg hd, ih, Nat.zero_add]

theorem countSub_head_self {c : Char} {p2 : List Char} (hc : c ∉ p2)
    (t : List Char) :
    countSub (c :: p2) ((c :: p2) ++ t) = 1 + countSub (c :: p2) t := by
  have hp : (c :: p2) <+: c :: (p2 ++ t) := by
    rw [List.cons_prefix_cons]
    exact ⟨rfl, List.prefix_append p2 t⟩
  rw [List.cons_append, countSub_cons, if_pos hp, countSub_cut p2 p2 hc t]

theorem countSub_append_fresh {pat : List Char} {c : Char}
    (hpat : pat ≠ []) (hc : c ∉ pat) (a b : List Char) :
    countSub pat (a ++ c :: b) = countSub pat a + countSub pat b := by
  have hcond : ∀ i, i < pat.length → 0 < i → ¬ (pat.drop i <+: c :: b) := by
    intro i hi _ hpre
    have hlen : 0 < (pat.drop i).length := by
      rw [List.length_drop]
      omega
    obtain ⟨e, es, he⟩ := List.exists_cons_of_ne_nil (List.length_pos.mp hlen)
    rw [he, List.cons_prefix_cons] at hpre
    have : e ∈ pat := List.drop_subset i pat (he ▸ List.mem_cons_self e es)
    exact hc (hpre.1 ▸ this)
  rw [countSub_append_right pat (c :: b) hcond a]
  have hcb : countSub pat (c :: b) = countSub pat b := by
    obtain ⟨f, fs, hf⟩ := List.exists_cons_of_ne_nil hpat
    have : ¬ (pat <+: c :: b) := by
      intro hp
      rw [hf, List.cons_prefix_cons] at hp
      exact hc (hf ▸ by simp [hp.1])
    rw [countSub_cons, if_neg this, Nat.zero_add]
  rw [hcb]

theorem countSub_joinNL {pat : List Char} (hpat : pat ≠ [])
    (hnl : '\n' ∉ pat) :
    ∀ segs, countSub pat (joinNL segs) = (segs.map (countSub pat)).sum
  | [] => by simp [joinNL, countSub]
  | [s] => by simp [joinNL]
  | s :: s2 :: rest => by
    have hstep : joinNL (s :: s2 :: rest) = s ++ '\n' :: joinNL (s2 :: rest) := rfl
    rw [hstep, countSub_append_fresh hpat hnl,
      countSub_joinNL hpat hnl (s2 :: rest)]
    simp

/-! ## Small facts about the embedded strings -/

theorem nl_data : ("\n" : String).data = ['\n'] := rfl

theorem tag_ne_nil : reasonTag.data ≠ [] := by decide

theorem tag_no_nl : '\n' ∉ reasonTag.data := by decide

theorem safe_extend {pat conc : List Char} (hl : pat.length ≤ conc.length + 1)
    (hd : ∀ i, i < pat.length → 0 < i → ¬ (pat.drop i <+: conc)) (x : List Char) :
    ∀ i, i < pat.length → 0 < i → ¬ (pat.drop i <+: conc ++ x) := by
  intro i hlt hi hp
  have hlen : (pat.drop i).length ≤ conc.length := by
    rw [List.length_drop]; omega
  exact hd i hlt hi (prefix_of_append_le hp hlen)

set_option maxRecDepth 40000 in
theorem countSub_tail_adj (t : Tone) :
    countSub reasonTag.data (("Please stop all recurring payments associated with this account immediately. ").data ++ (toneAdjustment t).data) = 0 := by
  cases t <;> decide

/-! ## Infix and suffix peeling helpers -/

theorem infix_extend_left {p b : List Char} (a : List Char) (h : p <:+: b) :
    p <:+: a ++ b :=
  h.trans (List.suffix_append a b).isInfix

theorem infix_extend_cons {p b : List Char} (c : Char) (h : p <:+: b) :
    p <:+: c :: b :=
  h.trans (List.suffix_cons c b).isInfix

theorem infix_head1 {a : List Char} (t : List Char) : a <:+: a ++ t :=
  ⟨[], t, by simp⟩

theorem infix_head2 {a b : List Char} (t : List Char) :
    (a ++ b) <:+: a ++ (b ++ t) :=
  ⟨[], t, by simp⟩

theorem infix_head3 {a b : List Char} (c : Char) (t : List Char) :
    (a ++ (b ++ [c])) <:+: a ++ (b ++ c :: t) :=
  ⟨[], t, by simp⟩

theorem suffix_extend_left {p b : List Char} (a : List Char) (h : p <:+ b) :
    p <:+ a ++ b :=
  h.trans (List.suffix_append a b)

theorem suffix_extend_cons {p b : List Char} (c : Char) (h : p <:+ b) :
    p <:+ c :: b :=
  h.trans (List.suffix_cons c b)

theorem infix_head3b {a b c : List Char} (t : List Char) :
    (a ++ (b ++ c)) <:+: a ++ (b ++ (c ++ t)) :=
  ⟨[], t, by simp⟩

theorem infix_after_cons {p : List Char} (c : Char) (t : List Char) :
    p <:+: (c :: p) ++ t :=
  ⟨[c], t, by simp⟩

theorem endsWith_intro {s : String} (A p : String) (h : s = A ++ p) :
    endsWithStr s p := by
  unfold endsWithStr
  rw [h, String.data_append]
  exact List.suffix_append _ _

/-! ## Line splitting -/

theorem splitNl_cons_nl (b : List Char) : splitNl ('\n' :: b) = [] :: splitNl b := by
  simp [splitNl]

theorem splitNl_append_cons :
    ∀ a, '\n' ∉ a → ∀ b, splitNl (a ++ '\n' :: b) = a :: splitNl b
  | [], _, b => by simp [splitNl]
  | c :: a2, hna, b => by
    have hc : c ≠ '\n' := fun h => hna (h ▸ List.mem_cons_self c a2)
    have ih := splitNl_append_cons a2 (fun hm => hna (List.mem_cons_of_mem c hm)) b
    simp only [List.cons_append, splitNl, if_neg hc]
    show (match splitNl (a2 ++ '\n' :: b) with
      | [] => [[c]]
      | h :: t => (c :: h) :: t) = (c :: a2) :: splitNl b
    rw [ih]

/-! ## Normal forms of the generated letter -/

set_option maxRecDepth 4000 in
theorem letter_head_split (d : String) (data : LetterData) :
    (getTemplateLetter d data).data
      = data.user.fullName.data ++ '\n' :: (data.user.address.data ++ '\n' ::
        (data.user.email.data ++ '\n' :: (data.user.phone.data ++ '\n' ::
        ('\n' :: (letterTail d data).data)))) := by
  simp [getTemplateLetter, letterTail, jsOr_empty, String.data_append, nl_data]

set_option maxRecDepth 4000 in
theorem letter_segs_pos (d : String) (data : LetterData)
    (h : data.subscription.cancellationReason ≠ "") :
    (getTemplateLetter d data).data = joinNL [
      data.user.fullName.data,
      data.user.address.data,
      data.user.email.data,
      data.user.phone.data,
      [],
      ("Date: ").data ++ d.data,
      [],
      ("RE: Cancellation of ").data ++ (data.subscription.serviceName.data ++ (" Subscription").data),
      ("Account Number: ").data ++ (jsOr data.subscription.accountNumber "N/A").data,
      [],
      ("To the Customer Service Team at ").data ++ (data.subscription.serviceName.data ++ (",").data),
      [],
      ("I am writing to formally request the cancellation of my ").data ++ (data.subscription.subscriptionPlan.data ++ ((" subscription, effective ").data ++ (data.subscription.effectiveDate.data ++ (".").data))),
      [],
      ("Reason for cancellation: ").data ++ data.subscription.cancellationReason.data,
      [],
      ("Please stop all recurring payments associated with this account immediately. ").data ++ (toneAdjustment data.tone).data,
      [],
      ("Thank you for your prompt attention to this matter.").data,
      [],
      ("Sincerely,").data,
      [],
      data.user.fullName.data] := by
  simp [getTemplateLetter, reasonLine, if_neg h, joinNL, jsOr_empty,
    String.data_append, nl_data]

set_option maxRecDepth 4000 in
theorem letter_segs_none (d : String) (data : LetterData)
    (h : data.subscription.cancellationReason = "") :
    (getTemplateLetter d data).data = joinNL [
      data.user.fullName.data,
      data.user.address.data,
      data.user.email.data,
      data.user.phone.data,
      [],
      ("Date: ").data ++ d.data,
      [],
      ("RE: Cancellation of ").data ++ (data.subscription.serviceName.data ++ (" Subscription").data),
      ("Account Number: ").data ++ (jsOr data.subscription.accountNumber "N/A").data,
      [],
      ("To the Customer Service Team at ").data ++ (data.subscription.serviceName.data ++ (",").data),
      [],
      ("I am writing to formally request the cancellation of my ").data ++ (data.subscription.subscriptionPlan.data ++ ((" subscription, effective ").data ++ (data.subscription.effectiveDate.data ++ (".").data))),
      [],
      [],
      ("Please stop all recurring payments associated with this account immediately. ").data ++ (toneAdjustment data.tone).data,
      [],
      ("Thank you for your prompt attention to this matter.").data,
      [],
      ("Sincerely,").data,
      [],
      data.user.fullName.data] := by
  simp [getTemplateLetter, reasonLine, if_pos h, joinNL, jsOr_empty,
    String.data_append, nl_data]

/-! ## Claim theorems -/

set_option maxRecDepth 100000
set_option maxHeartbeats 2000000

/-- C2 (amended): for every LetterRequest and date in which none of the
interpolated fields (full name, address, email, phone, service name, account
number, plan, effective date, cancellation reason) nor the date contains the
substring "Reason for cancellation:", the generated letter contains no
occurrence of "Reason for cancellation:" when `cancellationReason` is empty;
when it is non-empty that label occurs exactly once, as part of the line
"Reason for cancellation: {cancellationReason}" terminated by a newline.
The injection-freedom hypotheses are forced by the counterexample
shown separately: a field may itself contain the label text. -/
theorem c2_reason_line (d : String) (data : LetterData)
    (h1 : countSub reasonTag.data data.user.fullName.data = 0)
    (h2 : countSub reasonTag.data data.user.address.data = 0)
    (h3 : countSub reasonTag.data data.user.email.data = 0)
    (h4 : countSub reasonTag.data data.user.phone.data = 0)
    (h5 : countSub reasonTag.data data.subscription.serviceName.data = 0)
    (h6 : countSub reasonTag.data data.subscription.accountNumber.data = 0)
    (h7 : countSub reasonTag.data data.subscription.subscriptionPlan.data = 0)
    (h8 : countSub reasonTag.data data.subscription.effectiveDate.data = 0)
    (h9 : countSub reasonTag.data data.subscription.cancellationReason.data = 0)
    (h10 : countSub reasonTag.data d.data = 0) :
    (data.subscription.cancellationReason = "" →
      countSub reasonTag.data (getTemplateLetter d data).data = 0)
    ∧ (data.subscription.cancellationReason ≠ "" →
      countSub reasonTag.data (getTemplateLetter d data).data = 1
      ∧ containsStr (getTemplateLetter d data)
          ("Reason for cancellation: " ++ data.subscription.cancellationReason ++ "\n")) := by
  have e6 : countSub reasonTag.data (("Date: ").data ++ d.data) = 0 := by
    rw [countSub_append_left reasonTag.data ("Date: ").data (by decide) d.data, h10]
    decide
  have e8 : countSub reasonTag.data (("RE: Cancellation of ").data ++ (data.subscription.serviceName.data ++ (" Subscription").data)) = 0 := by
    rw [countSub_append_left reasonTag.data ("RE: Cancellation of ").data (by decide) _,
      countSub_append_right reasonTag.data (" Subscription").data (by decide) _, h5]
    decide
  have e9a : countSub reasonTag.data (("Account Number: ").data ++ (jsOr data.subscription.accountNumber "N/A").data) = 0 := by
    by_cases hacc : data.subscription.accountNumber = ""
    · rw [hacc]; decide
    · rw [show jsOr data.subscription.accountNumber "N/A" = data.subscription.accountNumber from by simp [jsOr, hacc]]
      rw [countSub_append_left reasonTag.data ("Account Number: ").data (by decide) _, h6]
      decide
  have e11 : countSub reasonTag.data (("To the Customer Service Team at ").data ++ (data.subscription.serviceName.data ++ (",").data)) = 0 := by
    rw [countSub_append_left reasonTag.data ("To the Customer Service Team at ").data (by decide) _,
      countSub_append_right reasonTag.data (",").data (by decide) _, h5]
    decide
  have e13 : countSub reasonTag.data (("I am writing to formally request the cancellation of my ").data ++ (data.subscription.subscriptionPlan.data ++ ((" subscription, effective ").data ++ (data.subscription.effectiveDate.data ++ (".").data)))) = 0 := by
    rw [countSub_append_left reasonTag.data ("I am writing to formally request the cancellation of my ").data (by decide) _,
      countSub_append_right reasonTag.data ((" subscription, effective ").data ++ (data.subscription.effectiveDate.data ++ (".").data)) (safe_extend (by decide) (by decide) _) _,
      countSub_append_left reasonTag.data (" subscription, effective ").data (by decide) _,
      countSub_append_right reasonTag.data (".").data (by decide) _, h7, h8]
    decide
  have eTh : countSub reasonTag.data (("Thank you for your prompt attention to this matter.").data) = 0 := by decide
  have eSi : countSub reasonTag.data (("Sincerely,").data) = 0 := by decide
  constructor
  · intro hr
    rw [letter_segs_none d data hr, countSub_joinNL tag_ne_nil tag_no_nl]
    simp only [List.map_cons, List.map_nil, List.sum_cons, List.sum_nil, countSub_nil]
    rw [h1, h2, h3, h4, e6, e8, e9a, e11, e13, countSub_tail_adj, eTh, eSi]
    norm_num
  · intro hr
    have e15 : countSub reasonTag.data (("Reason for cancellation: ").data ++ data.subscription.cancellationReason.data) = 1 := by
      have htag : reasonTag.data = 'R' :: ("eason for cancellation:").data := by decide
      have hMK : ("Reason for cancellation: ").data ++ data.subscription.cancellationReason.data
          = ('R' :: ("eason for cancellation:").data) ++ (' ' :: data.subscription.cancellationReason.data) := by
        rw [show ("Reason for cancellation: ").data = ('R' :: ("eason for cancellation:").data) ++ [' '] from by decide, List.append_assoc]
        rfl
      rw [hMK, htag, countSub_head_self (by decide)]
      have hcut := @countSub_cut 'R' (("eason for cancellation:").data) [' '] (by decide) data.subscription.cancellationReason.data
      rw [List.singleton_append] at hcut
      rw [hcut, ← htag, h9]
    constructor
    · rw [letter_segs_pos d data hr, countSub_joinNL tag_ne_nil tag_no_nl]
      simp only [List.map_cons, List.map_nil, List.sum_cons, List.sum_nil, countSub_nil]
      rw [h1, h2, h3, h4, e6, e8, e9a, e11, e13, e15, countSub_tail_adj, eTh, eSi]
      norm_num
    · show (("Reason for cancellation: " ++ data.subscription.cancellationReason ++ "\n")).data <:+: (getTemplateLetter d data).data
      rw [letter_segs_pos d data hr]
      simp only [joinNL, List.append_assoc, List.nil_append, String.data_append, nl_data,
        List.singleton_append]
      repeat
        first
        | exact infix_head3 '\n' _
        | apply infix_extend_cons
        | apply infix_extend_left


/-- C2 counterexample: with an empty cancellation reason but a full name that
itself contains the label, the letter still contains "Reason for
cancellation:" (twice), so the unconditional claim is false. -/
theorem c2_counterexample :
    injectedTagRequest.subscription.cancellationReason = ""
    ∧ countSub reasonTag.data (getTemplateLetter "1/2/2026" injectedTagRequest).data = 2 := by
  constructor
  · rfl
  · decide

/-- C2 witness: the amended theorem applied to a concrete populated request. -/
theorem c2_reason_line_witness :
    (witnessRequest.subscription.cancellationReason = "" →
      countSub reasonTag.data (getTemplateLetter "1/2/2026" witnessRequest).data = 0)
    ∧ (witnessRequest.subscription.cancellationReason ≠ "" →
      countSub reasonTag.data (getTemplateLetter "1/2/2026" witnessRequest).data = 1
      ∧ containsStr (getTemplateLetter "1/2/2026" witnessRequest)
          ("Reason for cancellation: " ++ witnessRequest.subscription.cancellationReason ++ "\n")) :=
  c2_reason_line "1/2/2026" witnessRequest (by decide) (by decide) (by decide) (by decide)
    (by decide) (by decide) (by decide) (by decide) (by decide) (by decide)


/-- C1 (amended): the sender block consists of four lines in order -- full
name, address, email, phone -- followed by a blank line; an empty address or
phone yields an empty rendered line in its slot rather than an omitted line
(the template keeps the line break around `${user.address || ''}` and
`${user.phone || ''}`). -/
theorem c1_sender_block (d : String) (data : LetterData)
    (hfn : '\n' ∉ data.user.fullName.data)
    (had : '\n' ∉ data.user.address.data)
    (hem : '\n' ∉ data.user.email.data)
    (hph : '\n' ∉ data.user.phone.data) :
    (splitNl (getTemplateLetter d data).data).take 5
      = [data.user.fullName.data, data.user.address.data,
         data.user.email.data, data.user.phone.data, []] := by
  rw [letter_head_split d data, splitNl_append_cons _ hfn, splitNl_append_cons _ had,
    splitNl_append_cons _ hem, splitNl_append_cons _ hph, splitNl_cons_nl]
  simp

/-- C1 witness: the amended theorem applied to a request whose address and
phone are empty; the address and phone slots are empty lines. -/
theorem c1_sender_block_witness :
    (splitNl (getTemplateLetter "1/2/2026" blankLineRequest).data).take 5
      = [blankLineRequest.user.fullName.data, blankLineRequest.user.address.data,
         blankLineRequest.user.email.data, blankLineRequest.user.phone.data, []] :=
  c1_sender_block "1/2/2026" blankLineRequest (by decide) (by decide) (by decide) (by decide)

/-- C1 counterexample: for a request with empty address and phone the letter
renders empty lines in the address and phone slots (line indices 1 and 3),
and the line after the full name is not the email line, contradicting the
claim that the empty lines are omitted from the output. -/
theorem c1_counterexample :
    blankLineRequest.user.address = "" ∧ blankLineRequest.user.phone = ""
    ∧ (splitNl (getTemplateLetter "1/2/2026" blankLineRequest).data).take 4
        = [['A'], [], ['B'], []]
    ∧ ¬ ((splitNl (getTemplateLetter "1/2/2026" blankLineRequest).data)[1]?
        = some ['B']) := by
  refine ⟨rfl, rfl, ?_, ?_⟩ <;> decide


/-- C3: the letter decomposes as some head followed by the halt-billing
instruction, then immediately the addendum selected from the tone by exact
match, then the closing; the formal addendum is the empty string; each
non-formal addendum starts with a single newline (same paragraph, no blank
line before it); the four addenda are pairwise distinct, so exactly one
addendum (or none, for Formal) is inserted per call. -/
theorem c3_tone_addendum (d : String) (data : LetterData) :
    (∃ A : String, getTemplateLetter d data
      = A ++ "Please stop all recurring payments associated with this account immediately. "
        ++ toneAdjustment data.tone
        ++ "\n" ++ "\n" ++ "Thank you for your prompt attention to this matter."
        ++ "\n" ++ "\n" ++ "Sincerely," ++ "\n" ++ "\n" ++ data.user.fullName)
    ∧ toneAdjustment Tone.FORMAL = ""
    ∧ (∃ body, toneAdjustment Tone.FIRM = "\n" ++ body ∧ body.data.head? ≠ some '\n')
    ∧ (∃ body, toneAdjustment Tone.FRIENDLY = "\n" ++ body ∧ body.data.head? ≠ some '\n')
    ∧ (∃ body, toneAdjustment Tone.DIRECT = "\n" ++ body ∧ body.data.head? ≠ some '\n')
    ∧ toneAdjustment Tone.FIRM ≠ toneAdjustment Tone.FRIENDLY
    ∧ toneAdjustment Tone.FIRM ≠ toneAdjustment Tone.DIRECT
    ∧ toneAdjustment Tone.FRIENDLY ≠ toneAdjustment Tone.DIRECT
    ∧ toneAdjustment Tone.FIRM ≠ toneAdjustment Tone.FORMAL
    ∧ toneAdjustment Tone.FRIENDLY ≠ toneAdjustment Tone.FORMAL
    ∧ toneAdjustment Tone.DIRECT ≠ toneAdjustment Tone.FORMAL := by
  refine ⟨⟨data.user.fullName ++ "\n" ++ jsOr data.user.address "" ++ "\n" ++
    data.user.email ++ "\n" ++ jsOr data.user.phone "" ++ "\n" ++ "\n" ++
    "Date: " ++ d ++ "\n" ++ "\n" ++
    "RE: Cancellation of " ++ data.subscription.serviceName ++ " Subscription" ++ "\n" ++
    "Account Number: " ++ jsOr data.subscription.accountNumber "N/A" ++ "\n" ++ "\n" ++
    "To the Customer Service Team at " ++ data.subscription.serviceName ++ "," ++ "\n" ++ "\n" ++
    "I am writing to formally request the cancellation of my " ++ jsOr data.subscription.subscriptionPlan "" ++ " subscription, effective " ++ data.subscription.effectiveDate ++ "." ++ "\n" ++ "\n" ++
    reasonLine data.subscription.cancellationReason ++ "\n", ?_⟩,
    rfl, ⟨"Please be advised that this request is final. I expect a written confirmation of this cancellation and an assurance that no further charges will be applied to my account. If any further unauthorized billing occurs, I will be forced to escalate this matter.", by decide, by decide⟩,
    ⟨"I have enjoyed using your service, but I have decided to cancel at this time. Thank you for your support and assistance with this request.", by decide, by decide⟩,
    ⟨"Please process this request immediately. No further communication is required other than a confirmation of termination.", by decide, by decide⟩,
    by decide, by decide, by decide, by decide, by decide, by decide⟩
  apply String.ext
  simp [getTemplateLetter, String.data_append, List.append_assoc]

/-- C4: when the account number is the empty string the letter contains
"Account Number: N/A"; when it is non-empty the letter contains
"Account Number: " followed by the literal account number. -/
theorem c4_account_number (d : String) (data : LetterData) :
    (data.subscription.accountNumber = "" →
      containsStr (getTemplateLetter d data) "Account Number: N/A")
    ∧ (data.subscription.accountNumber ≠ "" →
      containsStr (getTemplateLetter d data)
        ("Account Number: " ++ data.subscription.accountNumber)) := by
  constructor
  · intro h
    have hjs : jsOr data.subscription.accountNumber "N/A" = "N/A" := by simp [jsOr, h]
    show ("Account Number: N/A").data <:+: (getTemplateLetter d data).data
    rw [show ("Account Number: N/A").data = ("Account Number: ").data ++ ("N/A").data from by decide]
    simp only [getTemplateLetter, hjs, String.data_append, nl_data, List.append_assoc,
      List.singleton_append, List.nil_append]
    repeat
      first
      | exact infix_head2 _
      | apply infix_extend_cons
      | apply infix_extend_left
  · intro h
    have hjs : jsOr data.subscription.accountNumber "N/A" = data.subscription.accountNumber := by
      simp [jsOr, h]
    show ("Account Number: " ++ data.subscription.accountNumber).data <:+: (getTemplateLetter d data).data
    rw [String.data_append]
    simp only [getTemplateLetter, hjs, String.data_append, nl_data, List.append_assoc,
      List.singleton_append, List.nil_append]
    repeat
      first
      | exact infix_head2 _
      | apply infix_extend_cons
      | apply infix_extend_left

/-- C4 witness: both branches at concrete requests. -/
theorem c4_account_number_witness :
    containsStr (getTemplateLetter "1/2/2026" janeRequest) "Account Number: N/A"
    ∧ containsStr (getTemplateLetter "1/2/2026" witnessRequest)
        ("Account Number: " ++ witnessRequest.subscription.accountNumber) :=
  ⟨(c4_account_number "1/2/2026" janeRequest).1 rfl,
   (c4_account_number "1/2/2026" witnessRequest).2 (by decide)⟩


/-- C5: the specification scenario.  For the Jane Doe request with tone Firm
and Legalistic the letter contains the subject line, the N/A account line,
the reason line and the firm escalation paragraph, and it ends with
"Sincerely," followed by a blank line and the full name; the same request
with tone Formal yields the same letter with the tone addendum removed
(shared prefix and suffix around the addendum). -/
theorem c5_jane_scenario (d : String) :
    containsStr (getTemplateLetter d janeRequest) "RE: Cancellation of Netflix Subscription"
    ∧ containsStr (getTemplateLetter d janeRequest) "Account Number: N/A"
    ∧ containsStr (getTemplateLetter d janeRequest) "Reason for cancellation: Too expensive"
    ∧ containsStr (getTemplateLetter d janeRequest) "Please be advised that this request is final. I expect a written confirmation of this cancellation and an assurance that no further charges will be applied to my account. If any further unauthorized billing occurs, I will be forced to escalate this matter."
    ∧ endsWithStr (getTemplateLetter d janeRequest) "Sincerely,\n\nJane Doe"
    ∧ (∃ P Q : String, getTemplateLetter d janeRequest = P ++ toneAdjustment Tone.FIRM ++ Q
        ∧ getTemplateLetter d janeFormalRequest = P ++ Q) := by
  refine ⟨?_, ?_, ?_, ?_, ?_, ?_⟩
  · show ("RE: Cancellation of Netflix Subscription").data <:+: (getTemplateLetter d janeRequest).data
    rw [show ("RE: Cancellation of Netflix Subscription").data
        = ("RE: Cancellation of ").data ++ (("Netflix").data ++ (" Subscription").data) from by decide]
    simp only [getTemplateLetter, janeRequest, reasonLine, toneAdjustment, jsOr,
      String.data_append, nl_data, List.append_assoc, List.nil_append, List.singleton_append,
      reduceIte]
    repeat
      first
      | exact infix_head3b _
      | apply infix_extend_cons
      | apply infix_extend_left
  · show ("Account Number: N/A").data <:+: (getTemplateLetter d janeRequest).data
    rw [show ("Account Number: N/A").data = ("Account Number: ").data ++ ("N/A").data from by decide]
    simp only [getTemplateLetter, janeRequest, reasonLine, toneAdjustment, jsOr,
      String.data_append, nl_data, List.append_assoc, List.nil_append, List.singleton_append,
      reduceIte]
    repeat
      first
      | exact infix_head2 _
      | apply infix_extend_cons
      | apply infix_extend_left
  · show ("Reason for cancellation: Too expensive").data <:+: (getTemplateLetter d janeRequest).data
    rw [show ("Reason for cancellation: Too expensive").data
        = ("Reason for cancellation: ").data ++ ("Too expensive").data from by decide]
    simp only [getTemplateLetter, janeRequest, reasonLine, toneAdjustment, jsOr,
      String.data_append, nl_data, List.append_assoc, List.nil_append, List.singleton_append,
      reduceIte]
    repeat
      first
      | exact infix_head2 _
      | apply infix_extend_cons
      | apply infix_extend_left
  · show ("Please be advised that this request is final. I expect a written confirmation of this cancellation and an assurance that no further charges will be applied to my account. If any further unauthorized billing occurs, I will be forced to escalate this matter.").data <:+: (getTemplateLetter d janeRequest).data
    simp only [getTemplateLetter, janeRequest, reasonLine, toneAdjustment, jsOr,
      String.data_append, nl_data, List.append_assoc, List.nil_append, List.singleton_append,
      reduceIte]
    repeat
      first
      | exact infix_after_cons '\n' _
      | apply infix_extend_cons
      | apply infix_extend_left
  · have hq : ("Sincerely," ++ "\n" ++ "\n" ++ "Jane Doe" : String) = "Sincerely,\n\nJane Doe" := by decide
    have h1 : getTemplateLetter d janeRequest
        = ("Jane Doe" ++ "\n" ++ "1 Main St" ++ "\n" ++ "jane@x.com" ++ "\n" ++ "" ++ "\n" ++ "\n" ++
          "Date: " ++ d ++ "\n" ++ "\n" ++
          "RE: Cancellation of " ++ "Netflix" ++ " Subscription" ++ "\n" ++
          "Account Number: " ++ "N/A" ++ "\n" ++ "\n" ++
          "To the Customer Service Team at " ++ "Netflix" ++ "," ++ "\n" ++ "\n" ++
          "I am writing to formally request the cancellation of my " ++ "Premium" ++ " subscription, effective " ++ "2024-01-01" ++ "." ++ "\n" ++ "\n" ++
          "Reason for cancellation: " ++ "Too expensive" ++ "\n" ++ "\n" ++
          "Please stop all recurring payments associated with this account immediately. " ++
          toneAdjustment Tone.FIRM ++ "\n" ++ "\n" ++
          "Thank you for your prompt attention to this matter." ++ "\n" ++ "\n")
          ++ ("Sincerely," ++ "\n" ++ "\n" ++ "Jane Doe") := by
      apply String.ext
      simp [getTemplateLetter, janeRequest, reasonLine, toneAdjustment, jsOr,
        String.data_append, nl_data, List.append_assoc]
    rw [hq] at h1
    exact endsWith_intro _ _ h1
  · refine ⟨"Jane Doe" ++ "\n" ++ "1 Main St" ++ "\n" ++ "jane@x.com" ++ "\n" ++ "" ++ "\n" ++ "\n" ++
      "Date: " ++ d ++ "\n" ++ "\n" ++
      "RE: Cancellation of " ++ "Netflix" ++ " Subscription" ++ "\n" ++
      "Account Number: " ++ "N/A" ++ "\n" ++ "\n" ++
      "To the Customer Service Team at " ++ "Netflix" ++ "," ++ "\n" ++ "\n" ++
      "I am writing to formally request the cancellation of my " ++ "Premium" ++ " subscription, effective " ++ "2024-01-01" ++ "." ++ "\n" ++ "\n" ++
      "Reason for cancellation: " ++ "Too expensive" ++ "\n" ++ "\n" ++
      "Please stop all recurring payments associated with this account immediately. ",
      "\n" ++ "\n" ++ "Thank you for your prompt attention to this matter." ++ "\n" ++ "\n" ++
      "Sincerely," ++ "\n" ++ "\n" ++ "Jane Doe", ?_, ?_⟩
    · apply String.ext
      simp [getTemplateLetter, janeRequest, reasonLine, toneAdjustment, jsOr,
        String.data_append, nl_data, List.append_assoc]
    · apply String.ext
      simp [getTemplateLetter, janeFormalRequest, reasonLine, toneAdjustment, jsOr,
        String.data_append, nl_data, List.append_assoc]


/-- C6: the template generator is deterministic: two invocations with equal
requests and equal current dates produce byte-identical letters; the output
is a function of the request and the date alone. -/
theorem c6_deterministic (d1 d2 : String) (data1 data2 : LetterData)
    (hd : d1 = d2) (hdata : data1 = data2) :
    getTemplateLetter d1 data1 = getTemplateLetter d2 data2 := by
  rw [hd, hdata]

/-- C6 witness: determinism applied at a concrete request and date. -/
theorem c6_deterministic_witness :
    getTemplateLetter "1/2/2026" witnessRequest = getTemplateLetter "1/2/2026" witnessRequest :=
  c6_deterministic "1/2/2026" "1/2/2026" witnessRequest witnessRequest rfl rfl

/-- C7: the template generator is total with no error conditions at this
layer: every request, including one whose required fields are empty strings,
yields a non-empty letter containing the fixed scaffolding; the all-empty
request yields the full template with empty segments in place of the
missing values. -/
theorem c7_total_no_failure :
    (∀ (d : String) (data : LetterData),
      getTemplateLetter d data ≠ ""
      ∧ containsStr (getTemplateLetter d data) "To the Customer Service Team at ")
    ∧ getTemplateLetter "1/2/2026" emptyRequest
        = "\n\n\n\n\nDate: 1/2/2026\n\nRE: Cancellation of  Subscription\nAccount Number: N/A\n\nTo the Customer Service Team at ,\n\nI am writing to formally request the cancellation of my  subscription, effective .\n\n\nPlease stop all recurring payments associated with this account immediately. \n\nThank you for your prompt attention to this matter.\n\nSincerely,\n\n" := by
  constructor
  · intro d data
    constructor
    · intro hcontra
      have hdata := congrArg String.data hcontra
      rw [letter_head_split] at hdata
      simp at hdata
    · show ("To the Customer Service Team at ").data <:+: (getTemplateLetter d data).data
      simp only [getTemplateLetter, String.data_append, nl_data, List.append_assoc,
        List.nil_append, List.singleton_append]
      repeat
        first
        | exact infix_head1 _
        | apply infix_extend_cons
        | apply infix_extend_left
  · decide

/-- C8: repeated invocations never mutate the request: in state-passing form
the input object after any number of calls is the original one, and every
call returns the same letter. -/
theorem c8_no_input_mutation (n : Nat) (d : String) (data : LetterData) :
    (generateCalls n d data).2 = data
    ∧ (generateCalls n d data).1 = List.replicate n (getTemplateLetter d data) := by
  induction n with
  | zero => exact ⟨rfl, rfl⟩
  | succ k ih =>
    refine ⟨?_, ?_⟩
    · simp [generateCalls, generateCall, ih.1]
    · simp [generateCalls, generateCall, ih.1, ih.2, List.replicate_succ]

/-- C9: on every failure of the network path -- missing, empty or literal
"undefined" credential, a thrown request, or an absent or empty response
text -- `generateCancellationLetter` returns exactly the template letter for
the same input. -/
theorem c9_fallback (apiKey : Option String) (outcome : ApiOutcome)
    (d : String) (data : LetterData)
    (h : apiKey = none ∨ apiKey = some "" ∨ apiKey = some "undefined"
      ∨ outcome = ApiOutcome.error ∨ outcome = ApiOutcome.response none
      ∨ outcome = ApiOutcome.response (some "")) :
    generateCancellationLetter apiKey outcome d data = getTemplateLetter d data := by
  rcases h with h | h | h | h | h | h
  · rw [h]; rfl
  · rw [h]; simp [generateCancellationLetter]
  · rw [h]; simp [generateCancellationLetter]
  · rw [h]
    rcases apiKey with _ | key
    · rfl
    · by_cases hk : key = "" ∨ key = "undefined" <;>
        simp [generateCancellationLetter, hk]
  · rw [h]
    rcases apiKey with _ | key
    · rfl
    · by_cases hk : key = "" ∨ key = "undefined" <;>
        simp [generateCancellationLetter, hk]
  · rw [h]
    rcases apiKey with _ | key
    · rfl
    · by_cases hk : key = "" ∨ key = "undefined" <;>
        simp [generateCancellationLetter, hk]

/-- C9 witness: the fallback equality at a concrete failing configuration. -/
theorem c9_fallback_witness :
    generateCancellationLetter none ApiOutcome.error "1/2/2026" witnessRequest
      = getTemplateLetter "1/2/2026" witnessRequest :=
  c9_fallback none ApiOutcome.error "1/2/2026" witnessRequest (Or.inl rfl)

/-- C10: `suggestCancellationReason` always returns between 1 and 4 strings:
the four defaults whenever the credential is missing or unusable, the
request throws, or the response parses to no non-blank line; and on the
success path -- a usable key, a response, and at least one non-blank parsed
line -- it returns exactly the first at most four parsed lines (numbering
stripped, trimmed). -/
theorem c10_suggestions (apiKey : Option String) (outcome : ApiOutcome) (name : String) :
    (1 ≤ (suggestCancellationReason apiKey outcome name).length
      ∧ (suggestCancellationReason apiKey outcome name).length ≤ 4)
    ∧ ((apiKey = none ∨ apiKey = some "" ∨ apiKey = some "undefined"
        ∨ outcome = ApiOutcome.error
        ∨ (∃ t, outcome = ApiOutcome.response t ∧ parseSuggestions (t.getD "") = []))
      → suggestCancellationReason apiKey outcome name = defaultReasons)
    ∧ (∀ k, apiKey = some k → k ≠ "" → k ≠ "undefined" →
        ∀ t, outcome = ApiOutcome.response t → parseSuggestions (t.getD "") ≠ [] →
        suggestCancellationReason apiKey outcome name
          = (parseSuggestions (t.getD "")).take 4) := by
  rcases apiKey with _ | key
  · have hr : suggestCancellationReason none outcome name = defaultReasons := rfl
    exact ⟨⟨by rw [hr]; decide, by rw [hr]; decide⟩, fun _ => hr,
      fun k hks => Option.noConfusion hks⟩
  · by_cases hk : key = "" ∨ key = "undefined"
    · have hr : suggestCancellationReason (some key) outcome name = defaultReasons := by
        simp [suggestCancellationReason, hk]
      refine ⟨⟨by rw [hr]; decide, by rw [hr]; decide⟩, fun _ => hr, ?_⟩
      intro k hks hne1 hne2 t ht hp
      have hkk : k = key := (Option.some.inj hks).symm
      rcases hk with h | h
      · exact absurd (hkk.trans h) hne1
      · exact absurd (hkk.trans h) hne2
    · rcases outcome with _ | t
      · have hr : suggestCancellationReason (some key) ApiOutcome.error name = defaultReasons := by
          simp [suggestCancellationReason, hk]
        exact ⟨⟨by rw [hr]; decide, by rw [hr]; decide⟩, fun _ => hr,
          fun k _ _ _ t ht => ApiOutcome.noConfusion ht⟩
      · by_cases hl : 0 < (parseSuggestions (t.getD "")).length
        · have hr : suggestCancellationReason (some key) (ApiOutcome.response t) name
              = (parseSuggestions (t.getD "")).take 4 := by
            simp [suggestCancellationReason, hk, hl]
          refine ⟨⟨?_, ?_⟩, ?_, ?_⟩
          · rw [hr, List.length_take]; omega
          · rw [hr, List.length_take]; omega
          · intro hfail
            exfalso
            rcases hfail with h | h | h | h | ⟨t2, ht2, hp⟩
            · exact Option.noConfusion h
            · exact hk (Or.inl (Option.some.inj h))
            · exact hk (Or.inr (Option.some.inj h))
            · exact ApiOutcome.noConfusion h
            · have ht : t2 = t := (ApiOutcome.response.inj ht2).symm
              rw [ht] at hp
              rw [hp] at hl
              simp at hl
          · intro k _ _ _ t2 ht2 _
            have ht : t2 = t := (ApiOutcome.response.inj ht2).symm
            rw [ht]
            exact hr
        · have hr : suggestCancellationReason (some key) (ApiOutcome.response t) name
              = defaultReasons := by
            simp [suggestCancellationReason, hk, hl]
          have hnil : parseSuggestions (t.getD "") = [] :=
            List.eq_nil_of_length_eq_zero (by omega)
          refine ⟨⟨by rw [hr]; decide, by rw [hr]; decide⟩, fun _ => hr, ?_⟩
          intro k _ _ _ t2 ht2 hp
          have ht : t2 = t := (ApiOutcome.response.inj ht2).symm
          rw [ht] at hp
          exact absurd hnil hp

/-- C10 witness: the default branch at a concrete failing configuration, and
the success branch at a concrete usable key and five-line response, where
the result is the first four parsed lines. -/
theorem c10_suggestions_witness :
    suggestCancellationReason none ApiOutcome.error "Netflix" = defaultReasons
    ∧ suggestCancellationReason (some "k")
        (ApiOutcome.response (some "1. A\n2. B\n3. C\n4. D\n5. E")) "Netflix"
      = (parseSuggestions ((some "1. A\n2. B\n3. C\n4. D\n5. E" : Option String).getD "")).take 4 :=
  ⟨(c10_suggestions none ApiOutcome.error "Netflix").2.1 (Or.inl rfl),
   (c10_suggestions (some "k")
      (ApiOutcome.response (some "1. A\n2. B\n3. C\n4. D\n5. E")) "Netflix").2.2
     "k" rfl (by decide) (by decide)
     (some "1. A\n2. B\n3. C\n4. D\n5. E") rfl (by decide)⟩

end CancelLetter
